import Mathlib

/-!
Verification of the ingestion / retrieval service (`main.py`) of the
telecom document-RAG repository.  The pure logic of the service —
query classification (`analyze_query`), document chunk routing
(`_process_with_element_parser`, `_process_with_fallback`),
batch ingestion (`ingest_package`), deletion (`delete_package`),
reset (`reset_database`) and the two-stage search (`search_docs`) —
is embedded shallowly below; external collaborators (the LlamaParse
parser, the MarkdownElementNodeParser, the langchain splitter, the
Qdrant vector store, the FlashRank reranker, Redis) appear as explicit
inputs: parse outcomes, candidate lists, reranker functions and step
outcomes.
-/

set_option maxRecDepth 10000

namespace TelecomRag

/-! ### Python-string primitives, modelled over `List Char` -/

/-- Boolean prefix test on character lists. -/
def listStartsWith : List Char → List Char → Bool
  | [], _ => true
  | _ :: _, [] => false
  | a :: as, b :: bs => a == b && listStartsWith as bs

/-- Boolean infix (substring) test on character lists. -/
def listHasSegment (pat : List Char) : List Char → Bool
  | [] => pat.isEmpty
  | c :: cs => listStartsWith pat (c :: cs) || listHasSegment pat cs

/-- Python `pat in s` (substring containment). -/
def strContains (s pat : String) : Bool :=
  listHasSegment pat.data s.data

/-- Python `ch in s` for a single character. -/
def strHasChar (s : String) (c : Char) : Bool :=
  s.data.any (fun x => x == c)

/-- Left-to-right, non-overlapping replacement of `pat` by `rep`,
fuel-bounded; with fuel ≥ length of the input and a non-empty pattern the
fuel never runs out.  This is exactly Python's `str.replace` scan. -/
def replaceFuel (pat rep : List Char) : Nat → List Char → List Char
  | _, [] => []
  | 0, l => l
  | fuel + 1, c :: cs =>
    if listStartsWith pat (c :: cs) then
      rep ++ replaceFuel pat rep fuel (List.drop pat.length (c :: cs))
    else
      c :: replaceFuel pat rep fuel cs

/-- Python `s.replace(pat, rep)` (for the non-empty patterns used in the
source; an empty pattern is returned unchanged, a case the code never
exercises). -/
def pyReplace (s pat rep : String) : String :=
  if pat.data.isEmpty then s
  else String.mk (replaceFuel pat.data rep.data s.data.length s.data)

/-- Python `s.strip()` on the whitespace alphabet the inputs use. -/
def pyStrip (s : String) : String :=
  String.mk ((((s.data.dropWhile Char.isWhitespace).reverse).dropWhile
    Char.isWhitespace).reverse)

/-- Python `s.lower()` (ASCII case mapping; CJK characters are caseless in
both implementations). -/
def pyLower (s : String) : String :=
  String.mk (s.data.map Char.toLower)

/-- Fuel-bounded scan implementing Python `str.split` with a non-empty
separator: left-to-right, non-overlapping, emitting the chunk collected so
far (`acc`, reversed) at each separator occurrence. -/
def splitFuel (sep : List Char) : Nat → List Char → List Char → List (List Char)
  | _, acc, [] => [acc.reverse]
  | 0, acc, l => [acc.reverse ++ l]
  | fuel + 1, acc, c :: cs =>
    if listStartsWith sep (c :: cs) then
      acc.reverse :: splitFuel sep fuel [] (List.drop sep.length (c :: cs))
    else
      splitFuel sep fuel (c :: acc) cs

/-- Python `s.split(sep)` for a non-empty separator. -/
def pySplit (s sep : String) : List String :=
  if sep.data.isEmpty then [s]
  else (splitFuel sep.data s.data.length [] s.data).map String.mk

/-! ### Query classifier (`analyze_query`, main.py lines 589–655) -/

structure ExecutionPlan where
  query_type : String
  sub_queries : List String
  required_tools : List String
  reasoning : String
  suggested_approach : String
deriving DecidableEq, Repr

def comparisonKeywords : List String := ["对比", "差异", "变化", "vs", "区别"]
def aggregationKeywords : List String := ["总计", "统计", "汇总", "平均", "求和"]
def multiYearKeywords : List String := ["2023", "2024", "2022", "2025", "历年", "逐年"]
def tableKeywords : List String := ["表格", "excel", "附件", "sheet", "明细"]
def calculationKeywords : List String := ["计算", "激励", "提成", "金额", "费用", "合计"]

/-- The year candidates iterated at main.py line 623. -/
def yearRange : List String := ["2022", "2023", "2024", "2025"]

def hasKeyword (q : String) (kws : List String) : Bool :=
  kws.any (fun k => strContains q k)

def hasComparison (q : String) : Bool := hasKeyword (pyLower q) comparisonKeywords
def hasAggregation (q : String) : Bool := hasKeyword (pyLower q) aggregationKeywords
def hasMultiYear (q : String) : Bool := hasKeyword (pyLower q) multiYearKeywords
def hasTable (q : String) : Bool := hasKeyword (pyLower q) tableKeywords
def hasCalculation (q : String) : Bool := hasKeyword (pyLower q) calculationKeywords

/-- Years of `yearRange` occurring in the lower-cased query (main.py 622–625). -/
def yearsFound (q : String) : List String :=
  yearRange.filter (fun y => strContains (pyLower q) y)

/-- The base query of the complex branch (main.py 628–630): starting from
the original (not lower-cased) query, strip each found year together with
the generic year-over-year phrases. -/
def buildBaseQuery (qRaw : String) (yrs : List String) : String :=
  yrs.foldl
    (fun b yr => pyReplace (pyReplace (pyReplace b yr "") "历年" "") "逐年" "")
    qRaw

/-- One sub-query of the complex branch (main.py 632–635):
`f"{yr}年{base_query.strip()}".replace("  ", " ")`. -/
def mkSubQuery (yr base : String) : String :=
  pyReplace (yr ++ "年" ++ pyStrip base) "  " " "

/-- Shallow embedding of the `/analyze_query` endpoint body. -/
def analyzeQuery (qRaw : String) : ExecutionPlan :=
  if hasComparison qRaw && hasMultiYear qRaw then
    let yrs := yearsFound qRaw
    let subs :=
      if yrs.isEmpty then []
      else yrs.map (fun yr => mkSubQuery yr (buildBaseQuery qRaw yrs))
    { query_type := "complex"
      sub_queries := subs
      required_tools := ["search", "compare"]
      reasoning := "检测到跨年度对比查询，需要分别检索各年度文档"
      suggested_approach := "parallel" }
  else if hasTable qRaw then
    { query_type := "table"
      sub_queries := []
      required_tools := ["search", "extract_table"]
      reasoning := "检测到表格数据查询，会优先从表格集合检索"
      suggested_approach := "single_step" }
  else if hasAggregation qRaw || (hasCalculation qRaw && strContains (pyLower qRaw) "、") then
    let subs :=
      if strContains qRaw "、" then
        (pySplit qRaw "、").filterMap
          (fun s => if pyStrip s = "" then none else some (pyStrip s))
      else []
    { query_type := "aggregation"
      sub_queries := subs
      required_tools := ["search", "calculate"]
      reasoning := "检测到数据聚合或复杂计算需求，建议分步检索"
      suggested_approach := "multi_step" }
  else
    { query_type := "simple"
      sub_queries := []
      required_tools := ["search"]
      reasoning := "简单查询，将同时搜索文本和表格"
      suggested_approach := "single_step" }

/-! ### Data model: payloads and the two Qdrant collections

`COLLECTION_NAME = "telecom_collection_v2"` is the prose partition
(field `main` below); `TABLES_COLLECTION_NAME = "telecom_tables_v2"` is
the table partition (field `tables`).  A collection that does not exist
is `none`. -/

structure Payload where
  document : String
  group_id : String
  filename : String
  doc_type : String
  chunk_type : String
  idx : Nat
  source_package : String
  is_table : Option Bool
deriving DecidableEq, Repr

structure Db where
  main : Option (List Payload)
  tables : Option (List Payload)
deriving DecidableEq, Repr

/-- `client.upsert(collection_name=COLLECTION_NAME, points=…)`: append the
batch to the prose collection (created implicitly when absent). -/
def upsertMain (db : Db) (pts : List Payload) : Db :=
  { db with main := some (db.main.getD [] ++ pts) }

/-- `guess_doc_type` (main.py 105–109). -/
def guessDocType (filename : String) : String :=
  if ["通知", "公告", "管理办法", "规定", "主件", "正文"].any
      (fun k => strContains filename k) then "main"
  else "attachment"

/-! ### Ingestion chunk routing -/

/-- Per-file processing result dictionary (missing keys default as the
callers' `result.get(…, 0)` / `result.get("error", …)` do). -/
structure ProcResult where
  success : Bool
  text_nodes : Nat
  table_objects : Nat
  total_chunks : Nat
  mode : String
  error : String
deriving DecidableEq, Repr

/-- Points built from the element parser's text nodes and table objects
(main.py 204–243): blank units are skipped, text nodes get
`chunk_type = "text"`, table objects get `chunk_type = "table"` and
`is_table = True`.  The freshly generated uuid ids are irrelevant to every
claim and are not modelled. -/
def elementPoints (baseNodes objects : List String) (gid fn dt sp : String) :
    List Payload :=
  baseNodes.enum.filterMap (fun p =>
    if pyStrip p.2 = "" then none
    else some
      { document := p.2, group_id := gid, filename := fn, doc_type := dt
        chunk_type := "text", idx := p.1, source_package := sp
        is_table := none })
  ++ objects.enum.filterMap (fun p =>
    if pyStrip p.2 = "" then none
    else some
      { document := p.2, group_id := gid, filename := fn, doc_type := dt
        chunk_type := "table", idx := p.1, source_package := sp
        is_table := some true })

/-- Success path of `_process_with_element_parser` (main.py 184–261): all
points are upserted into the prose collection `COLLECTION_NAME`; the
result reports the raw node/object counts. -/
def elementParserSuccess (baseNodes objects : List String)
    (gid fn dt sp : String) (db : Db) : ProcResult × Db :=
  let pts := elementPoints baseNodes objects gid fn dt sp
  let db' := if pts.isEmpty then db else upsertMain db pts
  ({ success := true, text_nodes := baseNodes.length
     table_objects := objects.length, total_chunks := pts.length
     mode := "element_parser", error := "" }, db')

/-- Table detection of the fallback splitter path (main.py 309). -/
def isTableChunk (c : String) : Bool :=
  strHasChar c '|' && (strContains c "|---" || strContains c "| ===")

/-- One point of `_process_with_fallback` (main.py 306–326): a blank
chunk is skipped, the rest are classified by `isTableChunk`. -/
def fallbackPoint (gid fn dt sp : String) (p : Nat × String) : Option Payload :=
  if pyStrip p.2 = "" then none
  else some
    { document := p.2, group_id := gid, filename := fn, doc_type := dt
      chunk_type := if isTableChunk p.2 then "table" else "text"
      idx := p.1, source_package := sp, is_table := some (isTableChunk p.2) }

/-- Points built by `_process_with_fallback` (main.py 303–326) from the
heuristic splitter's chunks. -/
def fallbackPoints (chunks : List String) (gid fn dt sp : String) :
    List Payload :=
  chunks.enum.filterMap (fallbackPoint gid fn dt sp)

/-- `_process_with_fallback` (main.py 271–346): stores into the prose
collection; the reported counts use bare pipe presence (main.py 342–343),
not the stored classification. -/
def processWithFallback (chunks : List String) (gid fn dt sp : String)
    (db : Db) : ProcResult × Db :=
  let pts := fallbackPoints chunks gid fn dt sp
  let db' := if pts.isEmpty then db else upsertMain db pts
  ({ success := true
     text_nodes := (chunks.filter (fun c => !(strHasChar c '|'))).length
     table_objects := (chunks.filter (fun c => strHasChar c '|')).length
     total_chunks := pts.length, mode := "fallback", error := "" }, db')

/-- What the external stages produced for one file:
`failure` — LlamaParse raised or yielded no documents;
`structural` — LlamaIndex available: the element parser either returned
node texts and table-object texts or raised, plus the chunks the langchain
splitter would produce from the same markdown if the fallback runs;
`heuristic` — LlamaIndex unavailable, only the splitter's chunks. -/
inductive ParseOutcome where
  | failure (err : String)
  | structural (nodes : Except String (List String × List String))
      (fallbackChunks : List String)
  | heuristic (chunks : List String)
deriving Repr

/-- `process_document_with_element_parser` (main.py 113–174) together with
the dispatch into `_process_with_element_parser` /
`_process_with_fallback`. -/
def processDocument (po : ParseOutcome) (fn gid sp : String) (db : Db) :
    ProcResult × Db :=
  match po with
  | .failure e =>
    ({ success := false, text_nodes := 0, table_objects := 0
       total_chunks := 0, mode := "", error := e }, db)
  | .structural r fc =>
    match r with
    | .ok (bn, objs) => elementParserSuccess bn objs gid fn (guessDocType fn) sp db
    | .error _ => processWithFallback fc gid fn (guessDocType fn) sp db
  | .heuristic cs => processWithFallback cs gid fn (guessDocType fn) sp db

/-! ### Batch ingestion (`ingest_package`, main.py 350–434) -/

structure FileReport where
  filename : String
  status : String
  text_nodes : Nat
  table_objects : Nat
  error : String
deriving DecidableEq, Repr

structure IngestResponse where
  status : String
  msg : String
  group_id : String
  total_text_nodes : Nat
  total_table_objects : Nat
  total_chunks : Nat
  processed_files : List FileReport
deriving DecidableEq, Repr

/-- The per-file accumulation loop of `ingest_package` (main.py 386–409):
running text/table totals, per-file reports, and the store state. -/
def ingestFold (gid sp : String) (files : List (String × ParseOutcome))
    (db : Db) : Nat × Nat × List FileReport × Db :=
  files.foldl
    (fun acc f =>
      let (tt, tb, reps, d) := acc
      let (res, d') := processDocument f.2 f.1 gid sp d
      if res.success then
        (tt + res.text_nodes, tb + res.table_objects,
         reps ++ [⟨f.1, "success", res.text_nodes, res.table_objects, ""⟩], d')
      else
        (tt, tb, reps ++ [⟨f.1, "failed", 0, 0, res.error⟩], d'))
    (0, 0, [], db)

/-- `ingest_package` (main.py 350–434): an `error` response when the
reported totals sum to zero (main.py 411–418), a `success` response with
the totals otherwise. -/
def ingestPackage (gid sp : String) (files : List (String × ParseOutcome))
    (db : Db) : IngestResponse × Db :=
  let acc := ingestFold gid sp files db
  let tt := acc.1
  let tb := acc.2.1
  if tt + tb = 0 then
    ({ status := "error", msg := "No documents parsed successfully."
       group_id := "", total_text_nodes := 0, total_table_objects := 0
       total_chunks := 0, processed_files := acc.2.2.1 }, acc.2.2.2)
  else
    ({ status := "success", msg := "", group_id := gid
       total_text_nodes := tt, total_table_objects := tb
       total_chunks := tt + tb, processed_files := acc.2.2.1 }, acc.2.2.2)

/-! ### Lifecycle: delete and reset -/

/-- `delete_package` (main.py 436–464): from each collection that exists,
remove the points whose payload field `group_id` equals the target; a
missing collection is left alone. -/
def deletePackage (target : String) (db : Db) : Db :=
  { main := db.main.map (fun pts => pts.filter (fun p => !(p.group_id == target)))
    tables := db.tables.map (fun pts => pts.filter (fun p => !(p.group_id == target))) }

/-- The three independent cleanup attempts of `reset_database`
(main.py 466–502), each an external fallible step supplied as input, and
the strings the code appends to its report. -/
def resetReport (s1 s2 s3 : Except String Unit) : List String :=
  [ (match s1 with
     | .ok _ => "Qdrant text collection deleted"
     | .error e => "Qdrant text skipped (" ++ e ++ ")"),
    (match s2 with
     | .ok _ => "Qdrant tables collection deleted"
     | .error e => "Qdrant tables skipped (" ++ e ++ ")"),
    (match s3 with
     | .ok _ => "Redis memory flushed"
     | .error e => "Redis failed: " ++ e) ]

structure ResetResponse where
  status : String
  details : String
deriving DecidableEq, Repr

/-- `reset_database` (main.py 466–502): always returns
`{"status": "success", "details": " | ".join(report)}`. -/
def resetDatabase (s1 s2 s3 : Except String Unit) : ResetResponse :=
  { status := "success"
    details := String.intercalate " | " (resetReport s1 s2 s3) }

/-! ### Two-stage search (`search_docs`, main.py 504–585) -/

structure ScoredPoint where
  id : String
  payload : Payload
  score : Int
deriving DecidableEq, Repr

structure Candidate where
  id : String
  text : String
  meta : Payload
  source : String
  score : Int
deriving DecidableEq, Repr

structure Passage where
  id : String
  text : String
  meta : Payload
deriving DecidableEq, Repr

structure RankedPassage where
  id : String
  text : String
  meta : Payload
  score : Int
deriving DecidableEq, Repr

structure SearchResult where
  content : String
  score : Int
  metadata : Payload
  content_type : String
deriving DecidableEq, Repr

/-- Python list slicing `l[:n]`, including the negative-index semantics
(`l[:-k]` drops the last `k` elements, clipped at zero). -/
def pySliceTo (l : List α) (n : Int) : List α :=
  if 0 ≤ n then l.take n.toNat else l.take (l.length - (-n).toNat)

/-- The merged candidate pool of `search_docs` (main.py 511–554): the
broad-recall results of the prose collection (skipped when it does not
exist) followed by those of the tables collection (likewise). -/
def candidatesOf (textColl tableColl : Option (List ScoredPoint)) :
    List Candidate :=
  (match textColl with
   | none => []
   | some pts => pts.map (fun r =>
       { id := r.id, text := r.payload.document, meta := r.payload
         source := "text", score := r.score }))
  ++ (match tableColl with
      | none => []
      | some pts => pts.map (fun r =>
          { id := r.id, text := r.payload.document, meta := r.payload
            source := "table", score := r.score }))

/-- `search_docs` (main.py 504–585).  The external stages appear as
inputs: `textColl` / `tableColl` are the broad-recall candidate lists of
the two collections (`none` when the collection does not exist), and
`rr` is the FlashRank reranker.  The reranker is reached only after the
empty-pool check at main.py 556–557. -/
def searchDocs (textColl tableColl : Option (List ScoredPoint))
    (rr : String → List Passage → List RankedPassage)
    (query : String) (lim : Int) : List SearchResult :=
  let allResults := candidatesOf textColl tableColl
  if allResults.isEmpty then []
  else
    let passages := allResults.map (fun r =>
      ({ id := r.id, text := r.text, meta := r.meta } : Passage))
    let ranked := rr query passages
    let top := pySliceTo ranked lim
    top.map (fun r =>
      { content := r.text, score := r.score, metadata := r.meta
        content_type := if r.meta.is_table == some true then "table" else "text" })

/-! ### Helper lemmas -/

theorem listStartsWith_self_append (p t : List Char) : listStartsWith p (p ++ t) = true := by
  induction p with
  | nil => rfl
  | cons a as ih => simp [listStartsWith, ih]

theorem listHasSegment_of_listStartsWith (p l : List Char) (h : listStartsWith p l = true) :
    listHasSegment p l = true := by
  cases l with
  | nil =>
    cases p with
    | nil => rfl
    | cons a as => simp [listStartsWith] at h
  | cons c cs => simp [listHasSegment, h]

/-- Scanning for the double-space pattern walks unchanged over a prefix
that contains no space character. -/
theorem replaceFuel_dblspace_skip (p rest : List Char) (fuel : Nat)
    (h : ∀ c ∈ p, ¬ c = ' ') :
    replaceFuel [' ', ' '] [' '] (p.length + fuel) (p ++ rest) =
      p ++ replaceFuel [' ', ' '] [' '] fuel rest := by
  induction p with
  | nil => simp
  | cons c p' ih =>
    have hc : ¬ c = ' ' := h c (by simp)
    have hrec := ih (fun x hx => h x (by simp [hx]))
    have harith : (c :: p').length + fuel = (p'.length + fuel) + 1 := by
      simp [List.length_cons]; omega
    rw [harith]
    show replaceFuel [' ', ' '] [' '] ((p'.length + fuel) + 1) (c :: (p' ++ rest)) = _
    have hcond : listStartsWith [' ', ' '] (c :: (p' ++ rest)) = false := by
      simp [listStartsWith]
      intro hsp
      exact absurd hsp.symm hc
    simp [replaceFuel, hcond, hrec]

/-- Every sub-query built by the complex branch starts with — hence
contains — its own year token, provided the year has no space character
(true of every member of `yearRange`). -/
theorem mkSubQuery_contains_year (yr base : String)
    (h : ∀ c ∈ yr.data, ¬ c = ' ') :
    strContains (mkSubQuery yr base) yr = true := by
  have hdata : (yr ++ "年" ++ pyStrip base).data
      = yr.data ++ ("年".data ++ (pyStrip base).data) := by
    simp [String.data_append]
  unfold mkSubQuery pyReplace
  simp only [show ("  " : String).data.isEmpty = false from rfl, if_false,
    Bool.false_eq_true]
  rw [hdata]
  rw [List.length_append]
  rw [replaceFuel_dblspace_skip _ _ _ h]
  show listHasSegment yr.data (String.mk (yr.data ++ _)).data = true
  exact listHasSegment_of_listStartsWith _ _ (listStartsWith_self_append _ _)

theorem yearRange_no_space : ∀ yr ∈ yearRange, ∀ c ∈ yr.data, ¬ c = ' ' := by
  decide

/-! ### Claims -/

/-- C2.  `analyze_query` is a first-match-wins precedence over the
lower-cased query: comparison + multi-year → `complex`; else a table
keyword → `table`; else an aggregation keyword, or a calculation keyword
plus the list separator 、 → `aggregation`; else `simple`.  The four
concrete queries of the spec classify as stated, with the stated
sub-queries. -/
theorem c2_classifier_precedence :
    (∀ q : String, hasComparison q = true → hasMultiYear q = true →
      (analyzeQuery q).query_type = "complex")
  ∧ (∀ q : String, (hasComparison q && hasMultiYear q) = false →
      hasTable q = true → (analyzeQuery q).query_type = "table")
  ∧ (∀ q : String, (hasComparison q && hasMultiYear q) = false →
      hasTable q = false →
      (hasAggregation q || (hasCalculation q && strContains (pyLower q) "、")) = true →
      (analyzeQuery q).query_type = "aggregation")
  ∧ (∀ q : String, (hasComparison q && hasMultiYear q) = false →
      hasTable q = false →
      (hasAggregation q || (hasCalculation q && strContains (pyLower q) "、")) = false →
      (analyzeQuery q).query_type = "simple")
  ∧ (analyzeQuery "2023年与2024年流量对比").query_type = "complex"
  ∧ (analyzeQuery "2023年与2024年流量对比").sub_queries
      = ["2023年年与年流量对比", "2024年年与年流量对比"]
  ∧ (analyzeQuery "请提供附件中的Excel明细表格").query_type = "table"
  ∧ (analyzeQuery "总计费用、提成、激励").query_type = "aggregation"
  ∧ (analyzeQuery "总计费用、提成、激励").sub_queries = ["总计费用", "提成", "激励"]
  ∧ (analyzeQuery "今天天气如何").query_type = "simple" := by
  refine ⟨?_, ?_, ?_, ?_, by decide, by decide, by decide, by decide, by decide, by decide⟩
  · intro q h1 h2; simp [analyzeQuery, h1, h2]
  · intro q h1 h2; simp [analyzeQuery, h1, h2]
  · intro q h1 h2 h3; simp [analyzeQuery, h1, h2, h3]
  · intro q h1 h2 h3; simp [analyzeQuery, h1, h2, h3]

/-- Witness for C2 discharging its hypotheses at concrete queries. -/
theorem c2_classifier_precedence_witness :
    (hasComparison "2023年与2024年流量对比" = true
      ∧ hasMultiYear "2023年与2024年流量对比" = true)
  ∧ (analyzeQuery "2023年与2024年流量对比").query_type = "complex" :=
  ⟨by decide, c2_classifier_precedence.1 "2023年与2024年流量对比" (by decide) (by decide)⟩

/-- C3.  On every query classified `complex` (comparison keyword plus
multi-year signal), the classifier extracts the matching year tokens of
the configured range, strips each of them and the generic year-over-year
phrases 历年/逐年 from the original query to obtain the base query, and
emits exactly one sub-query per extracted year, formed by prefixing the
year to the stripped base query; each sub-query contains its own year. -/
theorem c3_complex_subqueries (q : String)
    (h1 : hasComparison q = true) (h2 : hasMultiYear q = true) :
    (analyzeQuery q).query_type = "complex"
  ∧ (analyzeQuery q).sub_queries
      = (yearsFound q).map
          (fun yr => mkSubQuery yr (buildBaseQuery q (yearsFound q)))
  ∧ (analyzeQuery q).sub_queries.length = (yearsFound q).length
  ∧ ∀ yr ∈ yearsFound q,
      strContains (mkSubQuery yr (buildBaseQuery q (yearsFound q))) yr = true := by
  refine ⟨by simp [analyzeQuery, h1, h2], ?_, ?_, ?_⟩
  · simp only [analyzeQuery, h1, h2, Bool.and_self, if_true]
    by_cases he : (yearsFound q).isEmpty
    · rw [List.isEmpty_iff] at he
      simp [he]
    · simp [he]
  · simp only [analyzeQuery, h1, h2, Bool.and_self, if_true]
    by_cases he : (yearsFound q).isEmpty
    · rw [List.isEmpty_iff] at he
      simp [he]
    · simp [he]
  · intro yr hyr
    have hmem : yr ∈ yearRange := List.mem_of_mem_filter hyr
    exact mkSubQuery_contains_year yr _ (yearRange_no_space yr hmem)

/-- Witness for C3 at the spec's concrete comparison query. -/
theorem c3_complex_subqueries_witness :
    (hasComparison "2023年与2024年流量对比" = true
      ∧ hasMultiYear "2023年与2024年流量对比" = true)
  ∧ (analyzeQuery "2023年与2024年流量对比").sub_queries.length
      = (yearsFound "2023年与2024年流量对比").length :=
  ⟨by decide,
    (c3_complex_subqueries "2023年与2024年流量对比" (by decide) (by decide)).2.2.1⟩

/-- C1.  Ingestion never routes any unit to the table partition: the
tables collection `telecom_tables_v2` is untouched by every processing
path, and a concrete file whose structural parse yields one prose node
and one table object ends with the table-classified unit stored in the
prose collection `telecom_collection_v2` while the table partition stays
nonexistent — the claimed partition exclusivity fails in the code. -/
theorem c1_table_units_stored_in_prose :
    (∀ po fn gid sp db, (processDocument po fn gid sp db).2.tables = db.tables)
  ∧ ((processDocument (.structural (.ok (["正文段落"], ["|a|b|\n|---|---|"])) [])
        "附件1.pdf" "g1" "pkg.zip" ⟨none, none⟩).2.main.getD []).any
        (fun p => p.chunk_type == "table") = true
  ∧ (processDocument (.structural (.ok (["正文段落"], ["|a|b|\n|---|---|"])) [])
        "附件1.pdf" "g1" "pkg.zip" ⟨none, none⟩).2.tables = none := by
  refine ⟨?_, by decide, by decide⟩
  intro po fn gid sp db
  cases po with
  | failure e => rfl
  | structural r fc =>
    cases r with
    | ok v =>
      obtain ⟨bn, objs⟩ := v
      show (elementParserSuccess bn objs gid fn (guessDocType fn) sp db).2.tables
          = db.tables
      unfold elementParserSuccess
      dsimp only
      split <;> rfl
    | error e =>
      show (processWithFallback fc gid fn (guessDocType fn) sp db).2.tables
          = db.tables
      unfold processWithFallback
      dsimp only
      split <;> rfl
  | heuristic cs =>
    show (processWithFallback cs gid fn (guessDocType fn) sp db).2.tables
        = db.tables
    unfold processWithFallback
    dsimp only
    split <;> rfl

/-- C4 counterexample.  A structural parse that returns zero nodes and
zero table objects does NOT fall back: the per-file result stays in
`element_parser` mode with success and zero stored units, while the
heuristic mode run on the same file's chunks would have stored one
unit. -/
theorem c4_no_fallback_on_zero_nodes :
    (processDocument (.structural (.ok ([], [])) ["hello world"]) "a.pdf" "g1"
        "pkg" ⟨none, none⟩).1.mode = "element_parser"
  ∧ (processDocument (.structural (.ok ([], [])) ["hello world"]) "a.pdf" "g1"
        "pkg" ⟨none, none⟩).1.success = true
  ∧ (processDocument (.structural (.ok ([], [])) ["hello world"]) "a.pdf" "g1"
        "pkg" ⟨none, none⟩).1.total_chunks = 0
  ∧ (processDocument (.structural (.ok ([], [])) ["hello world"]) "a.pdf" "g1"
        "pkg" ⟨none, none⟩).2 = ⟨none, none⟩
  ∧ (processWithFallback ["hello world"] "g1" "a.pdf" "attachment" "pkg"
        ⟨none, none⟩).1.total_chunks = 1 := by
  decide

/-- C4 amended.  Processing falls back to heuristic mode exactly when the
structural parser raises: an exception outcome is processed identically to
the heuristic splitter's run, while every non-raising structural outcome
(zero nodes included) stays in `element_parser` mode; a total parse
failure is recorded per-file without touching the store. -/
theorem c4_fallback_on_exception_only :
    (∀ err fc fn gid sp db,
      processDocument (.structural (.error err) fc) fn gid sp db
        = processWithFallback fc gid fn (guessDocType fn) sp db)
  ∧ (∀ bn objs fc fn gid sp db,
      (processDocument (.structural (.ok (bn, objs)) fc) fn gid sp db).1.mode
        = "element_parser")
  ∧ (∀ err fn gid sp db,
      (processDocument (.failure err) fn gid sp db).1.success = false
      ∧ (processDocument (.failure err) fn gid sp db).2 = db) :=
  ⟨fun _ _ _ _ _ _ => rfl, fun _ _ _ _ _ _ _ => rfl,
   fun _ _ _ _ _ => ⟨rfl, rfl⟩⟩

/-- C5 counterexample.  In fallback mode the chunk `"a | b"` (a pipe but
no separator row) is stored with `chunk_type = "text"`, yet the per-file
report counts it as a table unit and not as a text unit: the reported
counts disagree with the stored classification. -/
theorem c5_reported_counts_mismatch :
    (processWithFallback ["a | b"] "g1" "f.pdf" "attachment" "pkg"
        ⟨none, none⟩).1.text_nodes = 0
  ∧ (processWithFallback ["a | b"] "g1" "f.pdf" "attachment" "pkg"
        ⟨none, none⟩).1.table_objects = 1
  ∧ (processWithFallback ["a | b"] "g1" "f.pdf" "attachment" "pkg"
        ⟨none, none⟩).2.main
      = some [⟨"a | b", "g1", "f.pdf", "attachment", "text", 0, "pkg",
              some false⟩] := by
  decide

/-- Counting helper for C5: when every chunk is non-blank and every
pipe-containing chunk also carries a separator row, the pipe-presence
counts coincide with the counts of stored units by stored
classification. -/
theorem fallback_counts_agree_aux (gid fn dt sp : String) :
    ∀ (n : Nat) (chunks : List String),
      (∀ c ∈ chunks, ¬ pyStrip c = ""
        ∧ (strHasChar c '|' = true → isTableChunk c = true)) →
      ((((List.enumFrom n chunks).filterMap (fallbackPoint gid fn dt sp)).filter
          (fun p => p.chunk_type == "text")).length
        = (chunks.filter (fun c => !(strHasChar c '|'))).length)
      ∧ ((((List.enumFrom n chunks).filterMap (fallbackPoint gid fn dt sp)).filter
          (fun p => p.chunk_type == "table")).length
        = (chunks.filter (fun c => strHasChar c '|')).length) := by
  intro n chunks
  induction chunks generalizing n with
  | nil => intro h; simp
  | cons c cs ih =>
    intro h
    have hc := h c (by simp)
    have ihn := ih (n + 1) (fun x hx => h x (by simp [hx]))
    cases hpipe : strHasChar c '|' with
    | true =>
      have htab : isTableChunk c = true := hc.2 hpipe
      simp [List.enumFrom_cons, List.filterMap_cons, fallbackPoint, hc.1,
        htab, hpipe, ihn.1, ihn.2]
    | false =>
      have htab : isTableChunk c = false := by
        unfold isTableChunk; rw [hpipe]; rfl
      simp [List.enumFrom_cons, List.filterMap_cons, fallbackPoint, hc.1,
        htab, hpipe, ihn.1, ihn.2]

/-- C5 amended.  The per-file counts are: in fallback mode the numbers of
chunks without and with a pipe character (not the stored classification),
in element-parser mode the raw numbers of parsed nodes and table objects
(blank ones included though they are not stored); the counts agree with
the stored chunk-kind classification when every chunk is non-blank and
every pipe-containing chunk also contains a separator row. -/
theorem c5_reported_counts :
    (∀ chunks gid fn dt sp db,
      (processWithFallback chunks gid fn dt sp db).1.text_nodes
          = (chunks.filter (fun c => !(strHasChar c '|'))).length
      ∧ (processWithFallback chunks gid fn dt sp db).1.table_objects
          = (chunks.filter (fun c => strHasChar c '|')).length)
  ∧ (∀ bn objs gid fn dt sp db,
      (elementParserSuccess bn objs gid fn dt sp db).1.text_nodes = bn.length
      ∧ (elementParserSuccess bn objs gid fn dt sp db).1.table_objects
          = objs.length)
  ∧ (∀ chunks gid fn dt sp db,
      (∀ c ∈ chunks, ¬ pyStrip c = ""
        ∧ (strHasChar c '|' = true → isTableChunk c = true)) →
      (processWithFallback chunks gid fn dt sp db).1.text_nodes
        = ((fallbackPoints chunks gid fn dt sp).filter
            (fun p => p.chunk_type == "text")).length
      ∧ (processWithFallback chunks gid fn dt sp db).1.table_objects
        = ((fallbackPoints chunks gid fn dt sp).filter
            (fun p => p.chunk_type == "table")).length) := by
  refine ⟨fun _ _ _ _ _ _ => ⟨rfl, rfl⟩, fun _ _ _ _ _ _ _ => ⟨rfl, rfl⟩, ?_⟩
  intro chunks gid fn dt sp db h
  have haux := fallback_counts_agree_aux gid fn dt sp 0 chunks h
  exact ⟨haux.1.symm, haux.2.symm⟩

/-- Witness for C5's amended statement at a concrete batch of chunks. -/
theorem c5_reported_counts_witness :
    (∀ c ∈ ["hello", "|x|\n|---|---|"], ¬ pyStrip c = ""
      ∧ (strHasChar c '|' = true → isTableChunk c = true))
  ∧ (processWithFallback ["hello", "|x|\n|---|---|"] "g1" "f.pdf" "attachment"
        "pkg" ⟨none, none⟩).1.text_nodes
      = ((fallbackPoints ["hello", "|x|\n|---|---|"] "g1" "f.pdf" "attachment"
          "pkg").filter (fun p => p.chunk_type == "text")).length :=
  ⟨by decide,
   (c5_reported_counts.2.2 ["hello", "|x|\n|---|---|"] "g1" "f.pdf"
      "attachment" "pkg" ⟨none, none⟩ (by decide)).1⟩

/-- C6.  `delete_package` filters solely on the payload field `group_id`:
a unit whose legacy per-file identity (its source file name) equals the
target but whose `group_id` does not is left in place, contradicting the
endpoint's own description that a `file_id` may be supplied; deletion by
`group_id` works and a nonexistent partition is a no-op. -/
theorem c6_delete_ignores_legacy_file_id :
    deletePackage "file-1"
        ⟨some [⟨"d", "g1", "file-1", "main", "text", 0, "pkg.zip", none⟩], none⟩
      = ⟨some [⟨"d", "g1", "file-1", "main", "text", 0, "pkg.zip", none⟩], none⟩
  ∧ deletePackage "g1"
        ⟨some [⟨"d", "g1", "file-1", "main", "text", 0, "pkg.zip", none⟩], none⟩
      = ⟨some [], none⟩
  ∧ (∀ t, deletePackage t ⟨none, none⟩ = ⟨none, none⟩)
  ∧ (∀ t db, (deletePackage t db).main
        = db.main.map (fun pts => pts.filter (fun p => !(p.group_id == t)))
      ∧ (deletePackage t db).tables
        = db.tables.map (fun pts => pts.filter (fun p => !(p.group_id == t)))) :=
  ⟨by decide, by decide, fun _ => rfl, fun _ _ => ⟨rfl, rfl⟩⟩

/-- C7 counterexample.  A batch whose only file parses into a single
whitespace-only node persists zero units (both partitions stay empty),
yet the reported totals are non-zero and the call returns overall status
`success`, not `error`. -/
theorem c7_zero_persisted_but_success :
    (ingestPackage "g1" "pkg.zip"
        [("a.pdf", .structural (.ok (["   "], [])) [])] ⟨none, none⟩).1.status
      = "success"
  ∧ (ingestPackage "g1" "pkg.zip"
        [("a.pdf", .structural (.ok (["   "], [])) [])] ⟨none, none⟩).1.total_chunks
      = 1
  ∧ (ingestPackage "g1" "pkg.zip"
        [("a.pdf", .structural (.ok (["   "], [])) [])] ⟨none, none⟩).2
      = ⟨none, none⟩ := by
  decide

/-- C7 amended.  The ingest response is the structured status `error`
exactly when the accumulated reported text/table totals are zero, and the
status is always one of `error` / `success` (no exception reaches the
caller from this branch); the totals count reported units, which can
differ from persisted units. -/
theorem c7_error_iff_zero_reported :
    ∀ gid sp files db,
      ((ingestPackage gid sp files db).1.status = "error"
        ↔ (ingestFold gid sp files db).1 + (ingestFold gid sp files db).2.1 = 0)
    ∧ ((ingestPackage gid sp files db).1.status = "error"
        ∨ (ingestPackage gid sp files db).1.status = "success") := by
  intro gid sp files db
  by_cases h : (ingestFold gid sp files db).1 + (ingestFold gid sp files db).2.1 = 0
  · constructor
    · simp [ingestPackage, h]
    · left; simp [ingestPackage, h]
  · constructor
    · simp [ingestPackage, h]
    · right; simp [ingestPackage, h]

/-- C8.  The three reset steps are attempted independently: the response
status is always `success`, the report always has three entries, each
entry depends only on its own step's outcome, and a failing step's error
message is recorded in its entry. -/
theorem c8_reset_steps_independent :
    ∀ s1 s2 s3 s1' s2' s3' : Except String Unit,
      (resetDatabase s1 s2 s3).status = "success"
    ∧ (resetReport s1 s2 s3).length = 3
    ∧ (resetReport s1 s2 s3)[0]? = (resetReport s1 s2' s3')[0]?
    ∧ (resetReport s1 s2 s3)[1]? = (resetReport s1' s2 s3')[1]?
    ∧ (resetReport s1 s2 s3)[2]? = (resetReport s1' s2' s3)[2]?
    ∧ (∀ e, s1 = .error e →
        (resetReport s1 s2 s3)[0]? = some ("Qdrant text skipped (" ++ e ++ ")"))
    ∧ (∀ e, s2 = .error e →
        (resetReport s1 s2 s3)[1]? = some ("Qdrant tables skipped (" ++ e ++ ")"))
    ∧ (∀ e, s3 = .error e →
        (resetReport s1 s2 s3)[2]? = some ("Redis failed: " ++ e)) := by
  intro s1 s2 s3 s1' s2' s3'
  refine ⟨rfl, rfl, rfl, rfl, rfl, ?_, ?_, ?_⟩ <;>
    (intro e he; subst he; rfl)

/-- Witness for C8 with a concrete failing first step. -/
theorem c8_reset_witness :
    ((Except.error "boom" : Except String Unit) = Except.error "boom")
  ∧ (resetReport (.error "boom") (.ok ()) (.ok ()))[0]?
      = some "Qdrant text skipped (boom)" :=
  ⟨rfl,
   (c8_reset_steps_independent (.error "boom") (.ok ()) (.ok ()) (.ok ())
      (.ok ()) (.ok ())).2.2.2.2.2.1 "boom" rfl⟩

/-- Sample reranker for the search witnesses: returns the passages in
order with score 0. -/
def idRanker : String → List Passage → List RankedPassage :=
  fun _ ps => ps.map (fun p => ⟨p.id, p.text, p.meta, 0⟩)

def samplePayload : Payload :=
  ⟨"doc", "g1", "f.pdf", "main", "text", 0, "pkg", none⟩

def samplePoint : ScoredPoint := ⟨"id1", samplePayload, 3⟩

theorem length_pySliceTo (l : List α) (n : Int) (h : 0 ≤ n) :
    (pySliceTo l n).length = min n.toNat l.length := by
  simp [pySliceTo, h, List.length_take]

theorem candidatesOf_length (tc tb : Option (List ScoredPoint)) :
    (candidatesOf tc tb).length = (tc.getD []).length + (tb.getD []).length := by
  cases tc <;> cases tb <;> simp [candidatesOf]

/-- C9 counterexample.  The claim quantifies over every `limit`; with the
Python slice semantics of `ranked_results[:limit]`, a negative limit is
not honoured as a bound: on a pool of one candidate and `limit = -1` the
call returns 0 results, and `0 ≤ -1` is false. -/
theorem c9_negative_limit_unbounded :
    ¬ (((searchDocs (some [samplePoint]) none idRanker "q" (-1)).length : Int)
        ≤ -1) := by
  decide

/-- C9 amended.  For every query and every NON-NEGATIVE limit, provided
the reranker returns as many passages as it is given, `search` returns
exactly `min limit pool` results where `pool` is the total number of
broad-recall candidates of both partitions — hence at most `limit`, and
exactly the pool size whenever the pool is smaller than `limit`. -/
theorem c9_rerank_bound (tc tb : Option (List ScoredPoint))
    (rr : String → List Passage → List RankedPassage) (q : String) (lim : Int)
    (hrr : ∀ ps, (rr q ps).length = ps.length) (hlim : 0 ≤ lim) :
    (searchDocs tc tb rr q lim).length
      = min lim.toNat ((tc.getD []).length + (tb.getD []).length) := by
  unfold searchDocs
  dsimp only
  split
  next hemp =>
    rw [List.isEmpty_iff] at hemp
    have h0 : (tc.getD []).length + (tb.getD []).length = 0 := by
      rw [← candidatesOf_length tc tb, hemp]; rfl
    simp [h0]
  next hemp =>
    rw [List.length_map, length_pySliceTo _ _ hlim, hrr, List.length_map,
      candidatesOf_length]

/-- Witness for C9's amended bound on a one-candidate pool. -/
theorem c9_rerank_bound_witness :
    ((∀ ps, (idRanker "q" ps).length = ps.length) ∧ (0 : Int) ≤ 2)
  ∧ (searchDocs (some [samplePoint]) none idRanker "q" 2).length
      = min (2 : Int).toNat
          (((some [samplePoint] : Option (List ScoredPoint)).getD []).length
            + ((none : Option (List ScoredPoint)).getD []).length) :=
  ⟨⟨fun ps => by simp [idRanker], by decide⟩,
   c9_rerank_bound (some [samplePoint]) none idRanker "q" 2
     (fun ps => by simp [idRanker]) (by decide)⟩

/-- C10.  When the broad-recall pool is empty — each partition either
does not exist or returned zero candidates — `search` returns the empty
list for EVERY reranker function, i.e. the result does not depend on the
reranker, which is therefore never invoked (in particular not with zero
passages). -/
theorem c10_empty_pool_short_circuit
    (tc tb : Option (List ScoredPoint))
    (rr : String → List Passage → List RankedPassage) (q : String) (lim : Int)
    (h1 : tc.getD [] = []) (h2 : tb.getD [] = []) :
    searchDocs tc tb rr q lim = [] := by
  have hc : candidatesOf tc tb = [] := by
    cases tc <;> cases tb <;> simp_all [candidatesOf]
  simp [searchDocs, hc]

/-- Witness for C10: one partition missing, the other returning zero
candidates. -/
theorem c10_empty_pool_witness :
    ((none : Option (List ScoredPoint)).getD [] = []
      ∧ (some ([] : List ScoredPoint)).getD [] = [])
  ∧ searchDocs none (some []) idRanker "今天天气如何" 5 = [] :=
  ⟨⟨rfl, rfl⟩,
   c10_empty_pool_short_circuit none (some []) idRanker "今天天气如何" 5 rfl rfl⟩

end TelecomRag
